import Mathlib

/-!
Shallow embedding of the time-block planner core from `src/PlannerApp.tsx`.

Numbers that TypeScript treats as `number` are modelled as `ℤ` where the code
only ever produces integers (minutes, durations), and as `ℚ` for the pointer
coordinates and the fractional slot arithmetic of `positionToStartMin`
(the rational model is exact on every value exercised here).
`Math.round x` in JavaScript rounds half toward positive infinity, which is
`⌊x + 1/2⌋`; `Math.floor` is `⌊·⌋`.
-/

namespace Planner

/-- `DAY_START_MIN = 8 * 60` (PlannerApp.tsx line 38). -/
def DAY_START_MIN : ℤ := 8 * 60

/-- `DAY_END_MIN = 24 * 60` (line 39). -/
def DAY_END_MIN : ℤ := 24 * 60

/-- `SNAP_MIN = 30` (line 40). -/
def SNAP_MIN : ℤ := 30

/-- `GRID_MINUTES = DAY_END_MIN - DAY_START_MIN` (line 41). -/
def GRID_MINUTES : ℤ := DAY_END_MIN - DAY_START_MIN

/-- `SLOT_COUNT = GRID_MINUTES / SNAP_MIN` (line 42; the division is exact). -/
def SLOT_COUNT : ℤ := GRID_MINUTES / SNAP_MIN

/-- `clamp(n, min, max) = Math.max(min, Math.min(max, n))` (lines 52-54). -/
def clamp {α : Type} [LinearOrder α] (n min max : α) : α :=
  Max.max min (Min.min max n)

/-- JavaScript `Math.round`: rounds half toward positive infinity,
i.e. `Math.round x = ⌊x + 1/2⌋`. -/
def jsRound (x : ℚ) : ℤ := ⌊x + 1 / 2⌋

/-- `snapTo(mins, snap) = Math.round(mins / snap) * snap` (lines 56-58). -/
def snapTo (mins snap : ℤ) : ℤ := jsRound ((mins : ℚ) / (snap : ℚ)) * snap

/-- `ScheduledBlock` (lines 27-35). -/
structure ScheduledBlock where
  id : String
  dateISO : String
  startMinOfDay : ℤ
  durationMin : ℤ
  templateId : Option String := none
  goalId : Option String := none
  note : Option String := none
deriving DecidableEq

/-- A `Partial<ScheduledBlock>` as used by `changeBlock` (line 340): each field
is either absent or supplies a new value for the spread `{ ...b, ...next }`. -/
structure PartialBlock where
  id : Option String := none
  dateISO : Option String := none
  startMinOfDay : Option ℤ := none
  durationMin : Option ℤ := none
  templateId : Option (Option String) := none
  goalId : Option (Option String) := none
  note : Option (Option String) := none
deriving DecidableEq

/-- The object spread `{ ...b, ...next }` in `changeBlock` (line 341). -/
def spread (b : ScheduledBlock) (next : PartialBlock) : ScheduledBlock where
  id := next.id.getD b.id
  dateISO := next.dateISO.getD b.dateISO
  startMinOfDay := next.startMinOfDay.getD b.startMinOfDay
  durationMin := next.durationMin.getD b.durationMin
  templateId := next.templateId.getD b.templateId
  goalId := next.goalId.getD b.goalId
  note := next.note.getD b.note

/-- `moveBlock` (lines 335-338): snaps the new start with `snapTo(·, SNAP_MIN)`
and maps over the block list, updating only `startMinOfDay` of blocks whose id
matches; the state update is modelled as a function on the block list. -/
def moveBlock (id : String) (newStart : ℤ) (blocks : List ScheduledBlock) :
    List ScheduledBlock :=
  let ns := snapTo newStart SNAP_MIN
  blocks.map (fun b => if b.id = id then { b with startMinOfDay := ns } else b)

/-- `changeBlock` (lines 340-342): maps over the block list, spreading `next`
into blocks whose id matches. -/
def changeBlock (id : String) (next : PartialBlock)
    (blocks : List ScheduledBlock) : List ScheduledBlock :=
  blocks.map (fun b => if b.id = id then spread b next else b)

/-- The `onResize` handler passed to `DraggableBlock` (line 264):
`onBlockChange(b.id, { durationMin: nextDuration })`, where `onBlockChange`
is `changeBlock`. -/
def onResize (b : ScheduledBlock) (nextDuration : ℤ)
    (blocks : List ScheduledBlock) : List ScheduledBlock :=
  changeBlock b.id { durationMin := some nextDuration } blocks

/-- `positionToStartMin(clientX, clientY)` (lines 190-199). The grid rectangle
obtained from `getBoundingClientRect()` is passed explicitly as `rectTop`,
`rectHeight`; `clientX` is accepted but unused, exactly as in the source. -/
def positionToStartMin (clientX clientY rectTop rectHeight : ℚ) : ℤ :=
  let y := clamp (clientY - rectTop) 0 rectHeight
  let slotH := rectHeight / (SLOT_COUNT : ℚ)
  let slotIndex := ⌊y / slotH⌋
  let minsFromStart := slotIndex * SNAP_MIN
  clamp (DAY_START_MIN + minsFromStart) DAY_START_MIN (DAY_END_MIN - SNAP_MIN)

/-- `handleDragEnd` (lines 204-221) on its mutation path: extracts the pointer
`clientY`, computes `newStart = positionToStartMin(0, clientY)` and calls
`onBlockMove(id, newStart)`, which is `moveBlock`. -/
def handleDragEnd (id : String) (clientY rectTop rectHeight : ℚ)
    (blocks : List ScheduledBlock) : List ScheduledBlock :=
  let newStart := positionToStartMin 0 clientY rectTop rectHeight
  moveBlock id newStart blocks

/-- `dayBlocks = state.blocks.filter(b => b.dateISO === dateISO)` (line 319). -/
def dayBlocks (dateISO : String) (blocks : List ScheduledBlock) :
    List ScheduledBlock :=
  blocks.filter (fun b => b.dateISO == dateISO)

/-- The comparator `(a, b) => a.startMinOfDay - b.startMinOfDay` of line 224,
as the corresponding total preorder. -/
def blockLE (a b : ScheduledBlock) : Prop :=
  a.startMinOfDay ≤ b.startMinOfDay

instance : DecidableRel blockLE := fun a b =>
  inferInstanceAs (Decidable (a.startMinOfDay ≤ b.startMinOfDay))

instance : IsTotal ScheduledBlock blockLE :=
  ⟨fun a b => Int.le_total a.startMinOfDay b.startMinOfDay⟩

instance : IsTrans ScheduledBlock blockLE :=
  ⟨fun _ _ _ => Int.le_trans⟩

/-- `const sorted = [...blocks].sort((a,b) => a.startMinOfDay - b.startMinOfDay)`
(line 224). `Array.prototype.sort` is a stable sort ordered by the comparator
(guaranteed stable by the ECMAScript specification), modelled by the stable
`List.insertionSort` on the preorder `blockLE`. -/
def sortedView (blocks : List ScheduledBlock) : List ScheduledBlock :=
  List.insertionSort blockLE blocks

/-- The key `b.goalId || 'none'` used by `totalsByGoal` (line 347): JavaScript
treats both an absent `goalId` and the empty string as falsy. -/
def goalKey (b : ScheduledBlock) : String :=
  match b.goalId with
  | none => "none"
  | some g => if g = "" then "none" else g

/-- `totalsByGoal` (lines 344-351): builds a `Map` from goal key to summed
`durationMin`, reading absent keys as 0 (`map.get(g) || 0`). The `Map` is
modelled as its lookup function `String → ℤ` with default 0. -/
def totalsByGoal (blocks : List ScheduledBlock) : String → ℤ :=
  blocks.foldl
    (fun map b => Function.update map (goalKey b) (map (goalKey b) + b.durationMin))
    (fun _ => 0)

/-! ### Concrete blocks used as test inputs -/

/-- Block used by the C1 counterexample and witness. -/
def bC1 : ScheduledBlock :=
  { id := "c1", dateISO := "2024-01-01", startMinOfDay := 480, durationMin := 60 }

/-- Block used by the C2 counterexample. -/
def bC2 : ScheduledBlock :=
  { id := "c2", dateISO := "2024-01-01", startMinOfDay := 480, durationMin := 60 }

/-- Block used by the C3 counterexample and witness. -/
def bC3 : ScheduledBlock :=
  { id := "c3", dateISO := "2024-01-01", startMinOfDay := 600, durationMin := 90 }

/-- Block used by the C4 counterexample. -/
def bC4 : ScheduledBlock :=
  { id := "c4", dateISO := "2024-01-01", startMinOfDay := 510, durationMin := 60 }

/-- Block used by the C5 counterexample. -/
def bC5 : ScheduledBlock :=
  { id := "c5", dateISO := "2024-01-01", startMinOfDay := 540, durationMin := 30 }

/-- Block used by the C5 witness. -/
def bC5w : ScheduledBlock :=
  { id := "c5w", dateISO := "2024-01-01", startMinOfDay := 570, durationMin := 30 }

/-- Block used by the C6 counterexample: id `"b"`, stored before `bC6a`. -/
def bC6b : ScheduledBlock :=
  { id := "b", dateISO := "2024-01-01", startMinOfDay := 480, durationMin := 30 }

/-- Block used by the C6 counterexample: id `"a"`, same date and start as `bC6b`. -/
def bC6a : ScheduledBlock :=
  { id := "a", dateISO := "2024-01-01", startMinOfDay := 480, durationMin := 30 }

/-- First block of the C7 example: goal `"g1"`, duration 30. -/
def bC7a : ScheduledBlock :=
  { id := "x1", dateISO := "2024-01-01", startMinOfDay := 480, durationMin := 30,
    goalId := some "g1" }

/-- Second block of the C7 example: goal `"g1"`, duration 60. -/
def bC7b : ScheduledBlock :=
  { id := "x2", dateISO := "2024-01-01", startMinOfDay := 540, durationMin := 60,
    goalId := some "g1" }

/-- Block with no goal, used by the C7 witness for the sentinel-key part. -/
def bC7none : ScheduledBlock :=
  { id := "x3", dateISO := "2024-01-01", startMinOfDay := 600, durationMin := 45 }

/-! ### Helper lemmas about `clamp`, `jsRound` and `snapTo` -/

theorem le_clamp {α : Type} [LinearOrder α] (n lo hi : α) : lo ≤ clamp n lo hi :=
  le_max_left _ _

theorem clamp_le {α : Type} [LinearOrder α] (n lo hi : α) (h : lo ≤ hi) :
    clamp n lo hi ≤ hi :=
  max_le h (min_le_left _ _)

theorem clamp_eq_or {α : Type} [LinearOrder α] (n lo hi : α) :
    clamp n lo hi = lo ∨ clamp n lo hi = hi ∨ clamp n lo hi = n := by
  unfold clamp
  rcases le_total hi n with h1 | h1
  · rw [min_eq_left h1]
    rcases le_total lo hi with h2 | h2
    · rw [max_eq_right h2]; tauto
    · rw [max_eq_left h2]; tauto
  · rw [min_eq_right h1]
    rcases le_total lo n with h2 | h2
    · rw [max_eq_right h2]; tauto
    · rw [max_eq_left h2]; tauto

theorem clamp_of_le_of_le {α : Type} [LinearOrder α] {n lo hi : α}
    (h1 : lo ≤ n) (h2 : n ≤ hi) : clamp n lo hi = n := by
  unfold clamp
  rw [min_eq_right h2, max_eq_right h1]

theorem jsRound_intCast (k : ℤ) : jsRound (k : ℚ) = k := by
  unfold jsRound
  rw [Int.floor_int_add]
  norm_num

theorem snapTo_dvd (m : ℤ) : (30 : ℤ) ∣ snapTo m 30 :=
  dvd_mul_left 30 _

theorem snapTo_of_dvd (m : ℤ) (h : (30 : ℤ) ∣ m) : snapTo m 30 = m := by
  obtain ⟨k, rfl⟩ := h
  unfold snapTo
  have h30 : ((30 : ℤ) : ℚ) ≠ 0 := by norm_num
  have : ((30 * k : ℤ) : ℚ) / ((30 : ℤ) : ℚ) = (k : ℚ) := by
    push_cast
    field_simp
  rw [this, jsRound_intCast]
  ring

theorem snapTo_idem (m : ℤ) : snapTo (snapTo m 30) 30 = snapTo m 30 :=
  snapTo_of_dvd _ (snapTo_dvd m)

theorem snapTo_lower (m : ℤ) : m - 15 < snapTo m 30 := by
  unfold snapTo jsRound
  have h2 : (m : ℚ) / 30 + 1 / 2 < ⌊(m : ℚ) / ((30 : ℤ) : ℚ) + 1 / 2⌋ + 1 :=
    Int.lt_floor_add_one _
  set k : ℤ := ⌊(m : ℚ) / ((30 : ℤ) : ℚ) + 1 / 2⌋ with hk
  have : ((m - 15 : ℤ) : ℚ) < ((k * 30 : ℤ) : ℚ) := by
    push_cast
    nlinarith
  exact_mod_cast this

theorem snapTo_upper (m : ℤ) : snapTo m 30 ≤ m + 15 := by
  unfold snapTo jsRound
  have h1 : (⌊(m : ℚ) / ((30 : ℤ) : ℚ) + 1 / 2⌋ : ℚ) ≤ (m : ℚ) / 30 + 1 / 2 :=
    Int.floor_le _
  set k : ℤ := ⌊(m : ℚ) / ((30 : ℤ) : ℚ) + 1 / 2⌋ with hk
  have : ((k * 30 : ℤ) : ℚ) ≤ ((m + 15 : ℤ) : ℚ) := by
    push_cast
    nlinarith
  exact_mod_cast this

theorem positionToStartMin_eq (clientX clientY rectTop rectHeight : ℚ) :
    positionToStartMin clientX clientY rectTop rectHeight
      = clamp (480 + ⌊clamp (clientY - rectTop) 0 rectHeight / (rectHeight / 32)⌋ * 30)
          480 1410 := by
  unfold positionToStartMin
  norm_num [DAY_START_MIN, DAY_END_MIN, SNAP_MIN, SLOT_COUNT, GRID_MINUTES]

theorem positionToStartMin_dvd (clientX clientY rectTop rectHeight : ℚ) :
    (30 : ℤ) ∣ positionToStartMin clientX clientY rectTop rectHeight := by
  rw [positionToStartMin_eq]
  rcases clamp_eq_or (480 + ⌊clamp (clientY - rectTop) 0 rectHeight / (rectHeight / 32)⌋ * 30)
      (480 : ℤ) 1410 with h | h | h <;> rw [h]
  · exact ⟨16, by norm_num⟩
  · exact ⟨47, by norm_num⟩
  · exact ⟨16 + ⌊clamp (clientY - rectTop) 0 rectHeight / (rectHeight / 32)⌋, by ring⟩

theorem positionToStartMin_range (clientX clientY rectTop rectHeight : ℚ) :
    480 ≤ positionToStartMin clientX clientY rectTop rectHeight
      ∧ positionToStartMin clientX clientY rectTop rectHeight ≤ 1410 := by
  rw [positionToStartMin_eq]
  exact ⟨le_clamp _ _ _, clamp_le _ _ _ (by norm_num)⟩

/-- Pointer height offset `rectHeight * (20 / 960)` is the exact position of
minute 500 on a grid whose full height spans the 960 grid minutes. -/
theorem positionToStartMin_at_minute500 (rectTop rectHeight : ℚ) (h : 0 < rectHeight) :
    positionToStartMin 0 (rectTop + rectHeight * (20 / 960)) rectTop rectHeight = 480 := by
  rw [positionToStartMin_eq]
  have hne : rectHeight ≠ 0 := ne_of_gt h
  have hy : clamp (rectTop + rectHeight * (20 / 960) - rectTop) 0 rectHeight
      = rectHeight / 48 := by
    have he : rectTop + rectHeight * (20 / 960) - rectTop = rectHeight / 48 := by ring
    rw [he]
    exact clamp_of_le_of_le (by positivity) (by nlinarith)
  rw [hy]
  have hq : rectHeight / 48 / (rectHeight / 32) = 2 / 3 := by
    field_simp
    ring
  rw [hq]
  norm_num [clamp]

/-! ### Helper lemmas about `totalsByGoal` and the sorted day view -/

theorem totalsByGoal_foldl (l : List ScheduledBlock) (m : String → ℤ) (g : String) :
    l.foldl
      (fun map b => Function.update map (goalKey b) (map (goalKey b) + b.durationMin)) m g
    = m g + ((l.filter (fun b => goalKey b == g)).map ScheduledBlock.durationMin).sum := by
  induction l generalizing m with
  | nil => simp
  | cons b l ih =>
    rw [List.foldl_cons, ih]
    by_cases hbg : goalKey b = g
    · subst hbg
      simp [Function.update, List.filter_cons]
      ring
    · rw [List.filter_cons_of_neg (by simpa using hbg)]
      simp [Function.update, hbg]
      intro hgb
      exact absurd hgb.symm hbg

theorem totalsByGoal_eq_sum (l : List ScheduledBlock) (g : String) :
    totalsByGoal l g
      = ((l.filter (fun b => goalKey b == g)).map ScheduledBlock.durationMin).sum := by
  unfold totalsByGoal
  rw [totalsByGoal_foldl]
  simp

theorem filter_key_orderedInsert (k : ℤ) (a : ScheduledBlock)
    (l : List ScheduledBlock) :
    (List.orderedInsert blockLE a l).filter (fun b => b.startMinOfDay == k)
      = if a.startMinOfDay = k
          then a :: l.filter (fun b => b.startMinOfDay == k)
          else l.filter (fun b => b.startMinOfDay == k) := by
  induction l with
  | nil =>
    by_cases hak : a.startMinOfDay = k <;>
      simp [List.orderedInsert, List.filter_cons, hak]
  | cons b l ih =>
    simp only [List.orderedInsert]
    by_cases hab : blockLE a b
    · rw [if_pos hab]
      by_cases hak : a.startMinOfDay = k <;>
        simp [List.filter_cons, hak]
    · rw [if_neg hab]
      have hba : b.startMinOfDay < a.startMinOfDay := by
        simpa [blockLE] using hab
      by_cases hbk : b.startMinOfDay = k
      · have hak : a.startMinOfDay ≠ k := by omega
        simp [List.filter_cons, hbk, hak, ih]
      · simp [List.filter_cons, hbk, ih]

theorem filter_key_sortedView (k : ℤ) (l : List ScheduledBlock) :
    (sortedView l).filter (fun b => b.startMinOfDay == k)
      = l.filter (fun b => b.startMinOfDay == k) := by
  induction l with
  | nil => rfl
  | cons b l ih =>
    show (List.orderedInsert blockLE b (sortedView l)).filter _ = _
    rw [filter_key_orderedInsert]
    by_cases hbk : b.startMinOfDay = k <;>
      simp [List.filter_cons, hbk, ih]

/-! ### Claim theorems -/

/-- C2 counterexample: `snapTo 100 30 = 90`, `moveBlock` stores that value
unchanged, and 90 lies outside the interval `[480, 1410]` the claim says the
result is clamped into. -/
theorem claim2_counterexample :
    snapTo 100 30 = 90
      ∧ moveBlock "c2" 100 [bC2] = [{ bC2 with startMinOfDay := 90 }]
      ∧ ¬(480 ≤ (90 : ℤ)) := by
  have h : snapTo 100 30 = 90 := by norm_num [snapTo, jsRound]
  refine ⟨h, ?_, by decide⟩
  simp only [moveBlock, SNAP_MIN, List.map]
  rw [show snapTo 100 30 = 90 from h]
  simp [bC2]

/-- C2 (amended): `snapTo(m, 30)` returns the multiple of 30 nearest to `m`
with ties rounded up (the unique multiple of 30 in `(m - 15, m + 15]`); no
clamping to `[480, 1410]` is applied, neither in `snapTo` nor in `moveBlock`. -/
theorem claim2_snap_rounds_half_up (m : ℤ) :
    (30 : ℤ) ∣ snapTo m 30 ∧ m - 15 < snapTo m 30 ∧ snapTo m 30 ≤ m + 15 :=
  ⟨snapTo_dvd m, snapTo_lower m, snapTo_upper m⟩

/-- C9: on `[480, 1440)` (indeed on all of ℤ) the snap function is idempotent. -/
theorem claim9_snap_idempotent (m : ℤ) (h1 : 480 ≤ m) (h2 : m < 1440) :
    snapTo (snapTo m 30) 30 = snapTo m 30 :=
  snapTo_idem m

/-- C9 witness: idempotence at the in-range input 500. -/
theorem claim9_witness :
    snapTo (snapTo 500 30) 30 = snapTo 500 30 :=
  claim9_snap_idempotent 500 (by decide) (by decide)

/-- C10: for any pointer position and any grid rectangle of positive height,
`positionToStartMin` returns a multiple of 30 inside `[480, 1410]`, and that
value is a fixed point of `snapTo`, so a completed drag always stores a
snapped, in-range start even though `moveBlock` itself does not clamp. -/
theorem claim10_position_always_snapped (clientX clientY rectTop rectHeight : ℚ)
    (h : 0 < rectHeight) :
    (30 : ℤ) ∣ positionToStartMin clientX clientY rectTop rectHeight
  ∧ 480 ≤ positionToStartMin clientX clientY rectTop rectHeight
  ∧ positionToStartMin clientX clientY rectTop rectHeight ≤ 1410
  ∧ snapTo (positionToStartMin clientX clientY rectTop rectHeight) 30
      = positionToStartMin clientX clientY rectTop rectHeight :=
  ⟨positionToStartMin_dvd clientX clientY rectTop rectHeight,
   (positionToStartMin_range clientX clientY rectTop rectHeight).1,
   (positionToStartMin_range clientX clientY rectTop rectHeight).2,
   snapTo_of_dvd _ (positionToStartMin_dvd clientX clientY rectTop rectHeight)⟩

/-- C10 witness: the guarantees at pointer y = 20 over a rect of top 0,
height 960 (where the returned minute is 480). -/
theorem claim10_witness :
    (30 : ℤ) ∣ positionToStartMin 0 20 0 960
  ∧ 480 ≤ positionToStartMin 0 20 0 960
  ∧ positionToStartMin 0 20 0 960 ≤ 1410
  ∧ snapTo (positionToStartMin 0 20 0 960) 30 = positionToStartMin 0 20 0 960 :=
  claim10_position_always_snapped 0 20 0 960 (by norm_num)

/-- C7: `totalsByGoal` returns the all-zero mapping on the empty list; each
key maps to the sum of the durations of the blocks with that goal key
(duplicates summed, never overwritten); the mapping is invariant under
permutation of the input; blocks without a `goalId` fall under the sentinel
key `"none"`; and the two-block `"g1"` example sums to 90. -/
theorem claim7_totals_by_goal :
    (∀ g : String, totalsByGoal [] g = 0)
  ∧ (∀ (l : List ScheduledBlock) (g : String),
      totalsByGoal l g
        = ((l.filter (fun b => goalKey b == g)).map ScheduledBlock.durationMin).sum)
  ∧ (∀ l l' : List ScheduledBlock, l.Perm l' →
      ∀ g : String, totalsByGoal l g = totalsByGoal l' g)
  ∧ (∀ b : ScheduledBlock, b.goalId = none → goalKey b = "none")
  ∧ totalsByGoal [bC7a, bC7b] "g1" = 90 := by
  refine ⟨fun g => rfl, totalsByGoal_eq_sum, ?_, ?_, by decide⟩
  · intro l l' h g
    rw [totalsByGoal_eq_sum, totalsByGoal_eq_sum]
    exact ((h.filter _).map _).sum_eq
  · intro b hb
    simp [goalKey, hb]

/-- C7 witness: permutation invariance applied to the two-block example, and
the sentinel key for a goal-less block. -/
theorem claim7_witness :
    totalsByGoal [bC7a, bC7b] "g1" = totalsByGoal [bC7b, bC7a] "g1"
      ∧ goalKey bC7none = "none" :=
  ⟨claim7_totals_by_goal.2.2.1 [bC7a, bC7b] [bC7b, bC7a]
      (List.Perm.swap bC7b bC7a []) "g1",
   claim7_totals_by_goal.2.2.2.1 bC7none (by decide)⟩

/-- C1 counterexample: a resize request of 40 minutes is stored verbatim, and
40 is not a multiple of the 30-minute snap unit. -/
theorem claim1_counterexample :
    (onResize bC1 40 [bC1]).map ScheduledBlock.durationMin = [40]
      ∧ ¬((40 : ℤ) % 30 = 0) := by
  decide

/-- C1 (amended): after `moveBlock` the updated block's `startMinOfDay` is a
multiple of 30; but after a resize (`changeBlock` invoked with a `durationMin`
field by the resize handler) the stored duration is exactly the requested
value — no snap alignment and no 30-minute minimum is enforced on it. -/
theorem claim1_snap_invariants :
    (∀ (blocks : List ScheduledBlock) (id : String) (m : ℤ) (b : ScheduledBlock),
        b ∈ moveBlock id m blocks → b.id = id → b.startMinOfDay % 30 = 0)
  ∧ (∀ (blocks : List ScheduledBlock) (src : ScheduledBlock) (d : ℤ)
        (b : ScheduledBlock),
        b ∈ onResize src d blocks → b.id = src.id → b.durationMin = d) := by
  constructor
  · intro blocks id m b hmem hid
    obtain ⟨a, _, rfl⟩ := List.mem_map.1 hmem
    by_cases haid : a.id = id
    · rw [if_pos haid]
      exact Int.emod_eq_zero_of_dvd (snapTo_dvd m)
    · rw [if_neg haid] at hid
      exact absurd hid haid
  · intro blocks src d b hmem hid
    obtain ⟨a, _, rfl⟩ := List.mem_map.1 hmem
    by_cases haid : a.id = src.id
    · rw [if_pos haid]
      rfl
    · rw [if_neg haid] at hid
      exact absurd hid haid

/-- C1 witness: the moved block's start is 30-aligned, and a resize to 40
stores exactly 40. -/
theorem claim1_witness :
    ({ bC1 with startMinOfDay := snapTo 100 SNAP_MIN } : ScheduledBlock).startMinOfDay
        % 30 = 0
      ∧ ({ bC1 with durationMin := 40 } : ScheduledBlock).durationMin = 40 :=
  ⟨claim1_snap_invariants.1 [bC1] "c1" 100 _ (by simp [moveBlock, bC1]) rfl,
   claim1_snap_invariants.2 [bC1] bC1 40 _
     (by simp [onResize, changeBlock, spread, bC1]) rfl⟩

/-- C3 counterexample: a drag ending with the pointer at the position of
minute 500 (y = 20 over a rect of top 0, height 960) leaves the block at
start 480 — the start of the slot containing the pointer — not at 510. -/
theorem claim3_counterexample :
    handleDragEnd "c3" 20 0 960 [bC3] = [{ bC3 with startMinOfDay := 480 }]
      ∧ (480 : ℤ) ≠ 510 := by
  have hp : positionToStartMin 0 20 0 960 = 480 := by
    rw [positionToStartMin_eq]
    norm_num [clamp]
  have hs : snapTo 480 30 = 480 := snapTo_of_dvd 480 ⟨16, by norm_num⟩
  refine ⟨?_, by decide⟩
  unfold handleDragEnd
  rw [hp]
  simp only [moveBlock, SNAP_MIN, List.map]
  rw [show snapTo 480 30 = 480 from hs]
  simp [bC3]

/-- C3 (amended): for any grid rectangle of positive height, a move gesture
whose final pointer position corresponds to minute 500 (offset 20/960 of the
height past the top) acts as `moveBlock` with minute 480: the conversion
floors the pointer to its containing 30-minute slot, and 480 is already
snapped, so the dragged block ends at `startMinOfDay = 480`. -/
theorem claim3_drag_at_minute500 (id : String) (rectTop rectHeight : ℚ)
    (h : 0 < rectHeight) (blocks : List ScheduledBlock) :
    handleDragEnd id (rectTop + rectHeight * (20 / 960)) rectTop rectHeight blocks
      = moveBlock id 480 blocks
    ∧ snapTo 480 30 = 480 := by
  refine ⟨?_, snapTo_of_dvd 480 ⟨16, by norm_num⟩⟩
  unfold handleDragEnd
  rw [positionToStartMin_at_minute500 rectTop rectHeight h]

/-- C3 witness: the amended statement at rect top 0, height 960. -/
theorem claim3_witness :
    handleDragEnd "c3" (0 + 960 * (20 / 960)) 0 960 [bC3] = moveBlock "c3" 480 [bC3]
      ∧ snapTo 480 30 = 480 :=
  claim3_drag_at_minute500 "c3" 0 960 (by norm_num) [bC3]

/-- C4 counterexample: an end-edge resize to 45 minutes stores 45, whereas
`max(30, snap(45)) = 60`. -/
theorem claim4_counterexample :
    (onResize bC4 45 [bC4]).map ScheduledBlock.durationMin = [45]
      ∧ max 30 (snapTo 45 30) = 60
      ∧ (45 : ℤ) ≠ 60 := by
  refine ⟨by decide, ?_, by decide⟩
  have h : snapTo 45 30 = 60 := by norm_num [snapTo, jsRound]
  rw [h]
  decide

/-- C4 (amended): the end-edge resize (`changeBlock` with a `durationMin`
field) stores the requested duration verbatim — neither snapped nor bounded
below by 30 — leaves `startMinOfDay` and every other field of the targeted
block unchanged, and leaves every other block unchanged. -/
theorem claim4_resize_stores_raw_duration (blocks : List ScheduledBlock)
    (src : ScheduledBlock) (d : ℤ) :
    List.Forall₂
      (fun b b' =>
        (b.id = src.id →
          b'.durationMin = d ∧ b'.startMinOfDay = b.startMinOfDay
            ∧ b'.id = b.id ∧ b'.dateISO = b.dateISO ∧ b'.goalId = b.goalId
            ∧ b'.templateId = b.templateId ∧ b'.note = b.note)
        ∧ (b.id ≠ src.id → b' = b))
      blocks (onResize src d blocks) := by
  unfold onResize changeBlock
  rw [List.forall₂_map_right_iff, List.forall₂_same]
  intro b _
  by_cases hid : b.id = src.id <;> simp [hid, spread]

/-- C5 counterexample: `moveBlock` on an id absent from the store returns the
store unchanged — a silent no-op; its result carries no failure signal. -/
theorem claim5_counterexample :
    moveBlock "absent" 500 [bC5] = [bC5] := by
  decide

/-- C5 (amended): for an id absent from the store `moveBlock` is a silent
no-op returning the collection unchanged (there is no NotFound signal); for a
present id it sets that block's `startMinOfDay` to `snapTo(minute, 30)`. -/
theorem claim5_moveblock_absent_and_present :
    (∀ (blocks : List ScheduledBlock) (id : String) (m : ℤ),
        (∀ b ∈ blocks, b.id ≠ id) → moveBlock id m blocks = blocks)
  ∧ (∀ (blocks : List ScheduledBlock) (id : String) (m : ℤ) (b : ScheduledBlock),
        b ∈ moveBlock id m blocks → b.id = id →
          b.startMinOfDay = snapTo m SNAP_MIN) := by
  constructor
  · intro blocks id m h
    have hpt : ∀ b ∈ blocks,
        (if b.id = id then { b with startMinOfDay := snapTo m SNAP_MIN } else b) = b :=
      fun b hb => if_neg (h b hb)
    calc moveBlock id m blocks
        = blocks.map (fun b =>
            if b.id = id then { b with startMinOfDay := snapTo m SNAP_MIN } else b) := rfl
      _ = blocks.map (fun b => b) := List.map_congr_left hpt
      _ = blocks := List.map_id' blocks
  · intro blocks id m b hmem hid
    obtain ⟨a, _, rfl⟩ := List.mem_map.1 hmem
    by_cases haid : a.id = id
    · rw [if_pos haid]
    · rw [if_neg haid] at hid
      exact absurd hid haid

/-- C5 witness: a no-op at the absent id `"absent2"`, and the snapped start of
the block targeted by a present id. -/
theorem claim5_witness :
    moveBlock "absent2" 500 [bC5w] = [bC5w]
      ∧ ({ bC5w with startMinOfDay := snapTo 510 SNAP_MIN } :
            ScheduledBlock).startMinOfDay = snapTo 510 SNAP_MIN :=
  ⟨claim5_moveblock_absent_and_present.1 [bC5w] "absent2" 500 (by decide),
   claim5_moveblock_absent_and_present.2 [bC5w] "c5w" 510 _
     (by simp [moveBlock, bC5w]) rfl⟩

/-- C6 counterexample: two same-date blocks with equal starts, stored with ids
`"b"` then `"a"`: the displayed order keeps the stored order `[b, a]`, which
is not the id-ascending order `[a, b]` the claim requires for ties. -/
theorem claim6_counterexample :
    sortedView (dayBlocks "2024-01-01" [bC6b, bC6a]) = [bC6b, bC6a]
      ∧ bC6b.startMinOfDay = bC6a.startMinOfDay
      ∧ bC6a.id = "a" ∧ bC6b.id = "b"
      ∧ ([bC6b, bC6a] : List ScheduledBlock) ≠ [bC6a, bC6b] := by
  decide

/-- C6 (amended): the by-date view returns exactly the blocks of that date
(filtering preserves the stored order, as a sublist of the store), ordered by
`startMinOfDay` ascending; ties keep the stored order (the sort is stable:
blocks of each fixed start minute appear exactly as in the filtered list). -/
theorem claim6_sorted_day_view (date : String) (blocks : List ScheduledBlock) :
    List.Sorted blockLE (sortedView (dayBlocks date blocks))
  ∧ (sortedView (dayBlocks date blocks)).Perm (dayBlocks date blocks)
  ∧ (dayBlocks date blocks).Sublist blocks
  ∧ ∀ k : ℤ,
      (sortedView (dayBlocks date blocks)).filter (fun b => b.startMinOfDay == k)
        = (dayBlocks date blocks).filter (fun b => b.startMinOfDay == k) :=
  ⟨List.sorted_insertionSort blockLE (dayBlocks date blocks),
   List.perm_insertionSort blockLE (dayBlocks date blocks),
   List.filter_sublist blocks,
   fun k => filter_key_sortedView k (dayBlocks date blocks)⟩

/-- C8: a completed drag-move changes only the `startMinOfDay` field of the
targeted block — its id, date, duration, template, goal and note are
unchanged — and leaves every other block identical. -/
theorem claim8_move_frame (blocks : List ScheduledBlock) (id : String)
    (newStart : ℤ) :
    List.Forall₂
      (fun b b' =>
        (b.id = id →
          b'.id = b.id ∧ b'.dateISO = b.dateISO ∧ b'.durationMin = b.durationMin
            ∧ b'.templateId = b.templateId ∧ b'.goalId = b.goalId
            ∧ b'.note = b.note ∧ b'.startMinOfDay = snapTo newStart SNAP_MIN)
        ∧ (b.id ≠ id → b' = b))
      blocks (moveBlock id newStart blocks) := by
  unfold moveBlock
  rw [List.forall₂_map_right_iff, List.forall₂_same]
  intro b _
  by_cases hid : b.id = id <;> simp [hid]

end Planner
